import Mathlib

/-!
# Verification of the `smallsh` minimal Unix shell (`src/small_shell.c`)

Shallow embedding of the parsing, dispatch, and job-control logic of the shell.
C `int` raw wait statuses are modelled as `Nat` (they are non-negative in
practice), and the Linux/glibc wait-status decoding macros are translated
explicitly.  Environment-dependent results (the status returned by `waitpid`,
the result of `chdir`, the pid returned by `fork`) are passed as explicit
parameters.  Undefined behaviour (passing `NULL` to `strdup` or `strcmp`)
is represented by explicit error constructors.
-/

namespace SmallShell

/-- Global variables of the shell (`latest_status`, `foreground_only`,
both declared `int` and initialised to `0` at `src/small_shell.c:45-46`). -/
structure ShellState where
  latest_status : Nat
  foreground_only : Nat
deriving DecidableEq, Repr

/-- Initial globals: `int latest_status = 0; int foreground_only = 0;`. -/
def initial_state : ShellState := ⟨0, 0⟩

/-- The parsed command, `struct command_line`.  `arg_variables` holds the
`arg_count` argument strings in order; the C struct additionally keeps a
`NULL` terminator after them, which a list needs no counterpart for. -/
structure CommandLine where
  arg_variables : List String
  input_file : Option String
  output_file : Option String
  is_background : Bool
deriving DecidableEq, Repr

/-- Field `arg_count`: the number of stored arguments. -/
def CommandLine.arg_count (c : CommandLine) : Nat := c.arg_variables.length

/-- The zeroed structure produced by `calloc` in `parse_input`. -/
def empty_command : CommandLine := ⟨[], none, none, false⟩

/-- glibc `WTERMSIG`: `status & 0x7f`. -/
def WTERMSIG (status : Nat) : Nat := status % 128

/-- glibc `WIFEXITED`: `(status & 0x7f) == 0`. -/
def WIFEXITED (status : Nat) : Bool := status % 128 == 0

/-- glibc `WIFSIGNALED`: true exactly when the low seven bits are in `1..126`. -/
def WIFSIGNALED (status : Nat) : Bool := status % 128 != 0 && status % 128 != 127

/-- glibc `WEXITSTATUS`: `(status & 0xff00) >> 8`. -/
def WEXITSTATUS (status : Nat) : Nat := status / 256 % 256

/-- The delimiters of `strtok(input_buffer, " \n")`. -/
def isDelim (c : Char) : Bool := c == ' ' || c == '\n'

/-- Accumulating core of the `strtok` loop: splits a character list at
delimiters, dropping empty tokens, exactly as repeated `strtok(NULL, " \n")`
calls would yield them. -/
def tokenizeAux : List Char → List Char → List String
  | [], [] => []
  | [], cur => [String.mk cur.reverse]
  | c :: rest, cur =>
    if isDelim c then
      match cur with
      | [] => tokenizeAux rest []
      | _ => String.mk cur.reverse :: tokenizeAux rest []
    else tokenizeAux rest (c :: cur)

/-- The token sequence `strtok` produces from the input buffer. -/
def tokenize (s : String) : List String := tokenizeAux s.data []

/-- One pass of the `while (token)` loop of `parse_input`
(`src/small_shell.c:125-149`), over the token list, threading the command
structure being filled in.  `fg` is the global `foreground_only`.
A `<` or `>` token consumes the next token as its filename via
`strtok(NULL," \n")`; when no token follows, the C code passes the returned
`NULL` straight to `strdup`, undefined behaviour modelled as `none`. -/
def parseTokens (fg : Nat) : List String → CommandLine → Option CommandLine
  | [], acc => some acc
  | t :: rest, acc =>
    if t = "<" then
      match rest with
      | [] => none
      | f :: r => parseTokens fg r { acc with input_file := some f }
    else if t = ">" then
      match rest with
      | [] => none
      | f :: r => parseTokens fg r { acc with output_file := some f }
    else if t = "&" then
      if fg = 0 then parseTokens fg rest { acc with is_background := true }
      else parseTokens fg rest acc
    else
      parseTokens fg rest { acc with arg_variables := acc.arg_variables ++ [t] }

/-- Outcome of `parse_input` on one input line. -/
inductive ParseResult where
  /-- Blank or comment line: the function returns `NULL` and the main loop
  redisplays the prompt. -/
  | noCommand
  /-- A heap-allocated `struct command_line` was returned. -/
  | cmd (c : CommandLine)
  /-- Crash: `strdup(NULL)` is undefined behaviour. -/
  | nullDeref
deriving DecidableEq, Repr

/-- Function `parse_input` (`src/small_shell.c:103-151`) on the line `fgets` read:
lines whose first byte is `'\n'` or `'#'` yield no command; otherwise the
token loop fills a zeroed structure.  Reads the global `foreground_only`. -/
def parse_input (st : ShellState) (line : String) : ParseResult :=
  if line.data.head? = some '\n' ∨ line.data.head? = some '#' then .noCommand
  else
    match parseTokens st.foreground_only (tokenize line) empty_command with
    | none => .nullDeref
    | some c => .cmd c

/-- Outcome of `built_in_commands` (`src/small_shell.c:184-239`). -/
inductive BuiltinResult where
  /-- Undefined behaviour: `arg_variables[0]` is `NULL` (empty argument list), so
  `built_in_commands` evaluates `strcmp(NULL, _)`,
  undefined behaviour. -/
  | crash
  /-- The `exit` branch: the pids signalled before `exit` (none in the
  source) and the exit status passed to `exit`. -/
  | exited (signalled_pids : List Nat) (code : Nat)
  /-- A built-in ran: resulting global state and the lines it printed. -/
  | handled (st : ShellState) (out : List String)
  /-- Not a built-in name: the function returns `-1`. -/
  | notBuiltin
deriving DecidableEq, Repr

/-- What the `status` built-in prints for a raw wait status
(`src/small_shell.c:222-236`): signal termination is checked first,
then normal exit. -/
def status_output (s : Nat) : List String :=
  if WIFSIGNALED s then ["terminated by signal " ++ toString (WTERMSIG s) ++ "\n"]
  else if WIFEXITED s then ["exit value " ++ toString (WEXITSTATUS s) ++ "\n"]
  else []

/-- Function `built_in_commands` (`src/small_shell.c:184-239`).  `chdir_result` is
the value `chdir` returns for the one-argument `cd` (`0` success, `-1`
failure); the errno-dependent text of `perror("cd")` is modelled by a fixed
marker line.  The bare `cd` calls `chdir(getenv("HOME"))` when `HOME` is
set, with no output and no error handling.  No branch assigns
`latest_status`, and the `exit` branch frees the command and calls
`exit(0)` without signalling any child. -/
def built_in_commands (st : ShellState) (chdir_result : Int)
    (c : CommandLine) : BuiltinResult :=
  match c.arg_variables with
  | [] => .crash
  | a0 :: _ =>
    if a0 = "exit" then .exited [] 0
    else if a0 = "cd" then
      if c.arg_count = 1 then .handled st []
      else .handled st (if chdir_result = -1 then ["cd: error\n"] else [])
    else if a0 = "status" then .handled st (status_output st.latest_status)
    else .notBuiltin

/-- Function `manage_child_process` (`src/small_shell.c:410-438`), parent side after a
successful fork.  For a background command it prints the pid and returns
without waiting (the `waitpid` status parameter is unused).  For a
foreground command it blocks in `waitpid` until the child terminates;
`child_status` is the raw status that wait delivers, which is stored into
`latest_status`, and a signal-terminated child is reported immediately. -/
def manage_child_process (st : ShellState) (c : CommandLine) (spawnpid : Nat)
    (child_status : Nat) : ShellState × List String :=
  if c.is_background then
    (st, ["background pid is " ++ toString spawnpid ++ "\n"])
  else
    ({ st with latest_status := child_status },
      if WIFSIGNALED child_status then
        ["terminated by signal " ++ toString (WTERMSIG child_status) ++ "\n"]
      else [])

/-- Parent-side outcome of `exec_commands` (`src/small_shell.c:249-306`). -/
inductive ExecResult where
  /-- Fork failure (`fork()` returned `-1`): `perror("fork")` and `return 1`. -/
  | forkFailed (st : ShellState) (out : List String) (ret : Int)
  /-- The parent branch ran `manage_child_process` and returned `0`. -/
  | parentDone (st : ShellState) (out : List String) (ret : Int)
deriving DecidableEq, Repr

/-- Global state after an `exec_commands` return. -/
def ExecResult.state : ExecResult → ShellState
  | .forkFailed st _ _ => st
  | .parentDone st _ _ => st

/-- Lines printed by the shell process during `exec_commands`. -/
def ExecResult.output : ExecResult → List String
  | .forkFailed _ out _ => out
  | .parentDone _ out _ => out

/-- Return value of `exec_commands`. -/
def ExecResult.ret : ExecResult → Int
  | .forkFailed _ _ r => r
  | .parentDone _ _ r => r

/-- Function `exec_commands` (`src/small_shell.c:249-306`), as observed by the shell
process.  `spawnpid` is the value `fork` returned in the parent: `-1` on
failure — `perror("fork"); return 1`, touching no global — otherwise the
pid of the child, and the parent runs `manage_child_process` and returns `0`.
(The `case 0` child branch executes in the child process: it adjusts
signal dispositions, applies `file_redirection`, and either has its image
replaced by `execvp` or exits with status `1`; the parent observes it only
through `child_status`.)  The errno-dependent text of `perror("fork")` is
modelled by a fixed marker line. -/
def exec_commands (st : ShellState) (c : CommandLine) (spawnpid : Int)
    (child_status : Nat) : ExecResult :=
  if spawnpid = -1 then .forkFailed st ["fork: error\n"] 1
  else
    let r := manage_child_process st c spawnpid.toNat child_status
    .parentDone r.1 r.2 0

/-- Raw wait status delivered for a child that called `exit(1)` — as the
child does after an `execvp` or redirection failure (`src/small_shell.c:295`,
`:328`, `:371`): exit code `1` in bits 8-15, low seven bits zero. -/
def exit1_raw_status : Nat := 256

/-- One dispatch of a parsed command by the main loop body
(`src/small_shell.c:83-89`): built-ins first, otherwise `exec_commands`. -/
inductive StepResult where
  /-- Undefined behaviour reached (e.g. `strcmp(NULL, _)`). -/
  | crash
  /-- The shell process terminated via the `exit` built-in. -/
  | exited (signalled_pids : List Nat) (code : Nat)
  /-- The loop continues with this global state, having printed `out`. -/
  | next (st : ShellState) (out : List String)
deriving DecidableEq, Repr

/-- The main loop's dispatch of one parsed command (`src/small_shell.c:83-89`):
`built_in_commands`, then `exec_commands` for non-built-ins.  `chdir_result`,
`spawnpid` and `child_status` are the answers of the environment to `chdir`,
`fork` and `waitpid`. -/
def dispatch (st : ShellState) (chdir_result : Int) (spawnpid : Int)
    (child_status : Nat) (c : CommandLine) : StepResult :=
  match built_in_commands st chdir_result c with
  | .crash => .crash
  | .exited ps code => .exited ps code
  | .handled st' out => .next st' out
  | .notBuiltin =>
    match exec_commands st c spawnpid child_status with
    | .forkFailed st' out _ => .next st' out
    | .parentDone st' out _ => .next st' out

/-- The message `write`n by the SIGTSTP handler when entering
foreground-only mode (`src/small_shell.c:493`), byte for byte. -/
def start_message : String := "\nEntering foreground-only mode (& is now ignored)\n "

/-- The message `write`n by the SIGTSTP handler when leaving
foreground-only mode (`src/small_shell.c:494`), byte for byte. -/
def exit_message : String := "\nExiting foreground-only mode\n "

/-- Handler `handle_signal_tstp` (`src/small_shell.c:491-507`): toggles the global
`foreground_only` and `write`s one fixed message; returns the new flag
value and the bytes written. -/
def handle_signal_tstp (foreground_only : Nat) : Nat × String :=
  if foreground_only = 0 then (1, start_message)
  else (0, exit_message)

/-- The redirection-filename discipline that the token loop of `parse_input`
requires: scanning left to right, every `<` or `>` reached in operator
position (not already consumed as the filename of the operator before it)
must have a following token.  `parse_input` avoids `strdup(NULL)` exactly
on these token lists. -/
def redir_ok : List String → Bool
  | [] => true
  | t :: rest =>
    if t = "<" then
      match rest with
      | [] => false
      | _ :: r => redir_ok r
    else if t = ">" then
      match rest with
      | [] => false
      | _ :: r => redir_ok r
    else redir_ok rest

/-- A list of `n` copies of the two characters `" a"`. -/
def sep_chars : Nat → List Char
  | 0 => []
  | n + 1 => ' ' :: 'a' :: sep_chars n

/-- A 1025-byte input line of 513 whitespace-separated one-character
tokens: `"a a a ... a"`.  It fits in the 2048-byte `input_buffer`. -/
def line_513_args : String := String.mk ('a' :: sep_chars 512)

end SmallShell

namespace SmallShell

example : tokenize "ls -a\n" = ["ls", "-a"] := by decide
example : parse_input ⟨0, 0⟩ "sleep 5 &\n" =
    .cmd ⟨["sleep", "5"], none, none, true⟩ := by decide
example : parse_input ⟨0, 1⟩ "sleep 5 &\n" =
    .cmd ⟨["sleep", "5"], none, none, false⟩ := by decide
example : parse_input ⟨0, 0⟩ "wc < in > out\n" =
    .cmd ⟨["wc"], some "in", some "out", false⟩ := by decide
example : parse_input ⟨0, 0⟩ "wc <\n" = .nullDeref := by decide
example : parse_input ⟨0, 0⟩ "x < <\n" = .cmd ⟨["x"], some "<", none, false⟩ := by decide
example : parse_input ⟨0, 0⟩ "&\n" = .cmd ⟨[], none, none, true⟩ := by decide
example : parse_input ⟨0, 0⟩ "# hello\n" = .noCommand := by decide

/-! ## Helper lemmas -/

/-- Appending strings concatenates the underlying character lists. -/
theorem string_data_append (s t : String) : (s ++ t).data = s.data ++ t.data := by
  cases s; cases t; rfl

/-- Two strings whose first characters differ are distinct. -/
theorem string_ne_of_head_ne (s t : String)
    (h : s.data.head? ≠ t.data.head?) : s ≠ t := by
  intro he; exact h (by rw [he])

/-- The background-pid announcement never coincides with the
signal-termination report, whatever the numbers printed. -/
theorem bg_msg_ne_term_msg (p s : Nat) :
    ("background pid is " ++ toString p ++ "\n" : String) ≠
      "terminated by signal " ++ toString s ++ "\n" := by
  apply string_ne_of_head_ne
  rw [string_data_append, string_data_append, string_data_append, string_data_append]
  rw [show ("background pid is " : String).data = 'b' :: "ackground pid is ".data from rfl]
  rw [show ("terminated by signal " : String).data = 't' :: "erminated by signal ".data from rfl]
  simp only [List.cons_append, List.head?_cons]
  decide

/-- The token loop succeeds (never reaches `strdup(NULL)`) exactly on token
lists satisfying `redir_ok`, whatever the accumulated command and the
foreground-only flag. -/
theorem parseTokens_isSome (fg : Nat) (toks : List String) (acc : CommandLine) :
    (parseTokens fg toks acc).isSome = redir_ok toks := by
  induction toks, acc using parseTokens.induct fg with
  | case1 acc => rw [parseTokens.eq_def, redir_ok.eq_def]; simp
  | case2 acc => rw [parseTokens.eq_def, redir_ok.eq_def]; simp
  | case3 acc f r ih => rw [parseTokens.eq_def, redir_ok.eq_def]; simpa using ih
  | case4 acc h => rw [parseTokens.eq_def, redir_ok.eq_def]; simp
  | case5 acc f r h ih => rw [parseTokens.eq_def, redir_ok.eq_def]; simpa using ih
  | case6 rest acc hfg h1 h2 ih =>
    rw [parseTokens.eq_def, redir_ok.eq_def]; simpa [hfg] using ih
  | case7 rest acc hfg h1 h2 ih =>
    rw [parseTokens.eq_def, redir_ok.eq_def]; simpa [hfg] using ih
  | case8 t rest acc h1 h2 h3 ih =>
    rw [parseTokens.eq_def, redir_ok.eq_def]; simpa [h1, h2, h3] using ih

/-- With the foreground-only flag nonzero, the token loop never turns on the
background flag: the parsed command inherits the one of the accumulator. -/
theorem parseTokens_background (fg : Nat) (toks : List String) (acc : CommandLine)
    (hfg : fg ≠ 0) :
    ∀ c, parseTokens fg toks acc = some c → c.is_background = acc.is_background := by
  induction toks, acc using parseTokens.induct fg with
  | case1 acc => intro c hc; rw [parseTokens.eq_def] at hc; simp at hc; rw [← hc]
  | case2 acc => intro c hc; rw [parseTokens.eq_def] at hc; simp at hc
  | case3 acc f r ih =>
    intro c hc; rw [parseTokens.eq_def] at hc; simp at hc; exact ih c hc
  | case4 acc h => intro c hc; rw [parseTokens.eq_def] at hc; simp at hc
  | case5 acc f r h ih =>
    intro c hc; rw [parseTokens.eq_def] at hc; simp at hc; exact ih c hc
  | case6 rest acc h0 h1 h2 ih => exact absurd h0 hfg
  | case7 rest acc h0 h1 h2 ih =>
    intro c hc; rw [parseTokens.eq_def] at hc; simp [h0] at hc; exact ih c hc
  | case8 t rest acc h1 h2 h3 ih =>
    intro c hc; rw [parseTokens.eq_def] at hc; simp [h1, h2, h3] at hc; exact ih c hc

/-- Tokenizing the tail `" a a ... a"` (`n` repetitions) while a token is in
progress emits that token and then `n` copies of `"a"`. -/
theorem tokenizeAux_sep_chars (n : Nat) :
    ∀ cur : List Char, cur ≠ [] →
      tokenizeAux (sep_chars n) cur = String.mk cur.reverse :: List.replicate n "a" := by
  induction n with
  | zero =>
    intro cur h
    cases cur with
    | nil => exact absurd rfl h
    | cons c cs => simp [sep_chars, tokenizeAux]
  | succ n ih =>
    intro cur h
    cases cur with
    | nil => exact absurd rfl h
    | cons c cs =>
      rw [show tokenizeAux (sep_chars (n + 1)) (c :: cs)
            = String.mk (c :: cs).reverse :: tokenizeAux (sep_chars n) ['a'] from rfl]
      rw [ih ['a'] (by simp)]
      rfl

/-- The 1025-byte line tokenizes into 513 one-character tokens. -/
theorem tokenize_line_513 : tokenize line_513_args = List.replicate 513 "a" := by
  show tokenizeAux ('a' :: sep_chars 512) [] = List.replicate 513 "a"
  rw [tokenizeAux.eq_def]
  simp only [isDelim, Char.reduceEq, Bool.or_self, Bool.false_eq_true, if_false]
  rw [tokenizeAux_sep_chars 512 ['a'] (by simp)]
  rfl

/-- The token loop stores every token of a list of plain arguments. -/
theorem parseTokens_replicate (fg : Nat) (n : Nat) :
    ∀ acc, parseTokens fg (List.replicate n "a") acc
      = some { acc with arg_variables := acc.arg_variables ++ List.replicate n "a" } := by
  induction n with
  | zero => intro acc; simp [parseTokens]
  | succ n ih =>
    intro acc
    rw [List.replicate_succ, parseTokens.eq_def]
    simp only [reduceIte, String.reduceEq]
    rw [ih]
    simp [List.replicate_succ]

/-- The list `sep_chars n` has `2 * n` characters. -/
theorem sep_chars_length (n : Nat) : (sep_chars n).length = 2 * n := by
  induction n with
  | zero => rfl
  | succ n ih => simp [sep_chars, ih]; omega

/-! ## Claims -/

/-- C1: `latest_status` is updated only after the child of a foreground
external command has been waited for: every dispatch of a built-in (`exit`, `cd` —
including a failing `cd` —, `status`) and every background launch leaves the
Foreground Status unchanged, and its initial value `0` makes the `status`
built-in report `exit value 0`. -/
theorem c1_latest_status_invariant (st : ShellState) (chdir_result spawnpid : Int)
    (child_status : Nat) (c : CommandLine) (st' : ShellState) (out : List String)
    (hcmd : c.arg_variables.head? = some "exit" ∨ c.arg_variables.head? = some "cd" ∨
        c.arg_variables.head? = some "status" ∨ c.is_background = true)
    (hstep : dispatch st chdir_result spawnpid child_status c = .next st' out) :
    st'.latest_status = st.latest_status ∧
      status_output initial_state.latest_status = ["exit value 0\n"] := by
  refine ⟨?_, by decide⟩
  cases hargs : c.arg_variables with
  | nil => simp [dispatch, built_in_commands, hargs] at hstep
  | cons a0 rest =>
    by_cases hx : a0 = "exit"
    · simp [dispatch, built_in_commands, hargs, hx] at hstep
    · by_cases hc : a0 = "cd"
      · by_cases h1 : c.arg_count = 1 <;>
          · simp [dispatch, built_in_commands, hargs, hx, hc, h1] at hstep
            rw [← hstep.1]
      · by_cases hs : a0 = "status"
        · simp [dispatch, built_in_commands, hargs, hx, hc, hs] at hstep
          rw [← hstep.1]
        · have hbg : c.is_background = true := by
            rcases hcmd with h | h | h | h
            · rw [hargs] at h; simp at h; exact absurd h hx
            · rw [hargs] at h; simp at h; exact absurd h hc
            · rw [hargs] at h; simp at h; exact absurd h hs
            · exact h
          by_cases hsp : spawnpid = -1
          · simp [dispatch, built_in_commands, hargs, hx, hc, hs, exec_commands,
              hsp] at hstep
            rw [← hstep.1]
          · simp [dispatch, built_in_commands, hargs, hx, hc, hs, exec_commands,
              hsp, manage_child_process, hbg] at hstep
            rw [← hstep.1]

/-- C1 witness: a concrete `status` dispatch with `latest_status = 256`
(a child that exited with code 1) leaves the status untouched. -/
theorem c1_latest_status_invariant_witness :
    (dispatch ⟨256, 0⟩ 0 3 0 ⟨["status"], none, none, false⟩
        = .next ⟨256, 0⟩ ["exit value 1\n"]) ∧
    ((⟨256, 0⟩ : ShellState).latest_status = (⟨256, 0⟩ : ShellState).latest_status ∧
      status_output initial_state.latest_status = ["exit value 0\n"]) :=
  ⟨by decide,
    c1_latest_status_invariant ⟨256, 0⟩ 0 3 0 ⟨["status"], none, none, false⟩
      ⟨256, 0⟩ ["exit value 1\n"] (Or.inr (Or.inr (Or.inl (by decide)))) (by decide)⟩

/-- C2 (code bug): the claim says `exit` first sends a termination signal to
every still-tracked child; the `exit` branch of `built_in_commands`
(`src/small_shell.c:186-190`) frees the command and calls `exit(0)` directly,
signalling no child process at all. -/
theorem c2_exit_signals_no_children (st : ShellState) (chdir_result : Int)
    (rest : List String) (i o : Option String) (b : Bool) :
    built_in_commands st chdir_result ⟨"exit" :: rest, i, o, b⟩ = .exited [] 0 := by
  simp [built_in_commands]

/-- C3: with Foreground-Only Mode enabled at parse time, a line ending in the
standalone token `&` parses to a foreground command: the background flag is
false, `manage_child_process` blocks in `waitpid` (storing the waited-for
child's status) and never prints the `background pid is <pid>` message. -/
theorem c3_fg_only_runs_foreground (st : ShellState) (line : String)
    (c : CommandLine) (pid cs : Nat)
    (hfg : st.foreground_only ≠ 0)
    (hend : (tokenize line).getLast? = some "&")
    (hp : parse_input st line = .cmd c) :
    c.is_background = false ∧
    (manage_child_process st c pid cs).1.latest_status = cs ∧
    ("background pid is " ++ toString pid ++ "\n") ∉ (manage_child_process st c pid cs).2 := by
  have hbg : c.is_background = false := by
    unfold parse_input at hp
    split at hp
    · simp at hp
    · cases hpt : parseTokens st.foreground_only (tokenize line) empty_command with
      | none => rw [hpt] at hp; simp at hp
      | some c' =>
        rw [hpt] at hp; simp at hp
        rw [← hp]
        exact parseTokens_background st.foreground_only (tokenize line)
          empty_command hfg c' hpt
  refine ⟨hbg, ?_, ?_⟩
  · simp [manage_child_process, hbg]
  · by_cases hsig : WIFSIGNALED cs = true
    · simp only [manage_child_process, hbg, Bool.false_eq_true, if_false, hsig,
        if_true, List.mem_singleton]
      exact bg_msg_ne_term_msg pid (WTERMSIG cs)
    · simp [manage_child_process, hbg, hsig]

/-- C3 witness: `sleep 5 &` parsed with the flag on runs in the foreground. -/
theorem c3_fg_only_runs_foreground_witness :
    ((⟨0, 1⟩ : ShellState).foreground_only ≠ 0) ∧
    ((tokenize "sleep 5 &\n").getLast? = some "&") ∧
    (parse_input ⟨0, 1⟩ "sleep 5 &\n" = .cmd ⟨["sleep", "5"], none, none, false⟩) ∧
    ((⟨["sleep", "5"], none, none, false⟩ : CommandLine).is_background = false ∧
      (manage_child_process ⟨0, 1⟩ ⟨["sleep", "5"], none, none, false⟩ 7 0).1.latest_status = 0 ∧
      ("background pid is " ++ toString 7 ++ "\n")
        ∉ (manage_child_process ⟨0, 1⟩ ⟨["sleep", "5"], none, none, false⟩ 7 0).2) :=
  ⟨by decide, by decide, by decide,
    c3_fg_only_runs_foreground ⟨0, 1⟩ "sleep 5 &\n" ⟨["sleep", "5"], none, none, false⟩
      7 0 (by decide) (by decide) (by decide)⟩

/-- C5: when `fork` fails (`spawnpid = -1`), the shell reports the error,
leaves `latest_status` (indeed the whole global state) unchanged, and the
loop continues with the next prompt; by contrast a foreground child that
exits 1 after an exec/redirection failure (raw status 256) is stored. -/
theorem c5_fork_failure_preserves_status (st : ShellState) (chdir_result : Int)
    (cs : Nat) (a0 : String) (rest : List String) (i o : Option String) (b : Bool)
    (hx : a0 ≠ "exit") (hc : a0 ≠ "cd") (hs : a0 ≠ "status") :
    dispatch st chdir_result (-1) cs ⟨a0 :: rest, i, o, b⟩
        = .next st ["fork: error\n"] ∧
    WEXITSTATUS exit1_raw_status = 1 ∧
    (manage_child_process st ⟨a0 :: rest, i, o, false⟩ 3 exit1_raw_status).1.latest_status
        = exit1_raw_status := by
  refine ⟨?_, by decide, by simp [manage_child_process]⟩
  simp [dispatch, built_in_commands, hx, hc, hs, exec_commands]

/-- C5 witness: a failing fork of `ls` leaves `latest_status = 7` alone. -/
theorem c5_fork_failure_preserves_status_witness :
    (("ls" : String) ≠ "exit" ∧ ("ls" : String) ≠ "cd" ∧ ("ls" : String) ≠ "status") ∧
    (dispatch ⟨7, 0⟩ 0 (-1) 0 ⟨["ls"], none, none, false⟩ = .next ⟨7, 0⟩ ["fork: error\n"] ∧
      WEXITSTATUS exit1_raw_status = 1 ∧
      (manage_child_process ⟨7, 0⟩ ⟨["ls"], none, none, false⟩ 3
          exit1_raw_status).1.latest_status = exit1_raw_status) :=
  ⟨by decide,
    c5_fork_failure_preserves_status ⟨7, 0⟩ 0 0 "ls" [] none none false
      (by decide) (by decide) (by decide)⟩

/-- C6 counterexample: neither SIGTSTP message is the bare newline-terminated
text the claim states — the source strings carry a leading newline and a
trailing space after the terminating newline. -/
theorem c6_messages_not_bare :
    (handle_signal_tstp 0).2 ≠ "Entering foreground-only mode (& is now ignored)\n" ∧
    (handle_signal_tstp 1).2 ≠ "Exiting foreground-only mode\n" := by decide

/-- C6 amended: the toggle messages are the claimed texts, but each preceded
by a leading newline and followed by a newline plus one trailing space. -/
theorem c6_message_exact_text :
    handle_signal_tstp 0
        = (1, "\n" ++ "Entering foreground-only mode (& is now ignored)" ++ "\n ") ∧
    handle_signal_tstp 1 = (0, "\n" ++ "Exiting foreground-only mode" ++ "\n ") := by
  decide

/-- C7 (code bug): the line `&` is neither blank nor a comment, so
`parse_input` returns a Command whose argument sequence is empty; the main
loop then hands it to `built_in_commands`, which passes the `NULL` at
`arg_variables[0]` to `strcmp` — undefined behaviour. -/
theorem c7_empty_command_produced :
    parse_input initial_state "&\n" = .cmd ⟨[], none, none, true⟩ ∧
    (⟨[], none, none, true⟩ : CommandLine).arg_count = 0 ∧
    built_in_commands initial_state 0 ⟨[], none, none, true⟩ = .crash := by decide

/-- C8 counterexample: identical input text parses to different Command
values depending on the process's Foreground-Only flag, so parsing is not
independent of the rest of the shell state. -/
theorem c8_parse_reads_fg_flag :
    parse_input ⟨0, 0⟩ "sleep 5 &\n" ≠ parse_input ⟨0, 1⟩ "sleep 5 &\n" := by decide

/-- C8 amended: parsing is a deterministic function of the input text and the
Foreground-Only flag alone: two shell states agreeing on `foreground_only`
parse every line identically (`latest_status` plays no role). -/
theorem c8_parse_deterministic (st₁ st₂ : ShellState) (line : String)
    (h : st₁.foreground_only = st₂.foreground_only) :
    parse_input st₁ line = parse_input st₂ line := by
  cases st₁ with
  | mk ls1 fg1 =>
    cases st₂ with
    | mk ls2 fg2 =>
      have h2 : fg1 = fg2 := h
      subst h2
      rfl

/-- C8 witness: states differing only in `latest_status` parse alike. -/
theorem c8_parse_deterministic_witness :
    ((⟨0, 0⟩ : ShellState).foreground_only = (⟨99, 0⟩ : ShellState).foreground_only) ∧
    parse_input ⟨0, 0⟩ "ls -a\n" = parse_input ⟨99, 0⟩ "ls -a\n" :=
  ⟨by decide, c8_parse_deterministic ⟨0, 0⟩ ⟨99, 0⟩ "ls -a\n" (by decide)⟩

/-- C9 (code bug): a 1025-byte line of 513 one-character tokens fits the
2048-byte input buffer, yet `parse_input` stores 513 > 512 arguments — the
token loop has no MAX_ARGS check, so the final stores (and the NULL
terminator at index 513) run past the end of `arg_variables[513]`. -/
theorem c9_max_args_exceeded :
    line_513_args.length = 1025 ∧ line_513_args.length < 2048 ∧
    parse_input initial_state line_513_args
        = .cmd ⟨List.replicate 513 "a", none, none, false⟩ ∧
    512 < (List.replicate 513 "a" : List String).length := by
  have hlen : line_513_args.length = 1025 := by
    show ('a' :: sep_chars 512).length = 1025
    simp [sep_chars_length]
  refine ⟨hlen, by rw [hlen]; omega, ?_, by rw [List.length_replicate]; omega⟩
  unfold parse_input
  rw [if_neg (by decide)]
  rw [tokenize_line_513, parseTokens_replicate]
  rfl

/-- C10 counterexample: the line `x < <` ends in the bare token `<`, yet the
parser consumes that trailing `<` as the filename of the preceding operator
and returns normally — `strtok` never returns `NULL` into `strdup` here, so
the stated precondition is not necessary for safety. -/
theorem c10_trailing_operator_as_filename :
    (tokenize "x < <\n").getLast? = some "<" ∧
    parse_input ⟨0, 0⟩ "x < <\n" = .cmd ⟨["x"], some "<", none, false⟩ := by decide

/-- C10 amended: on a non-blank, non-comment line, `parse_input` avoids the
NULL dereference exactly when every `<` or `>` reached in operator position
(not already consumed as a preceding operator's filename) has a following
token; in particular a trailing `<`/`>` consumed as a filename is safe. -/
theorem c10_null_deref_iff (st : ShellState) (line : String)
    (h : line.data.head? ≠ some '\n' ∧ line.data.head? ≠ some '#') :
    parse_input st line ≠ .nullDeref ↔ redir_ok (tokenize line) = true := by
  have hk := parseTokens_isSome st.foreground_only (tokenize line) empty_command
  unfold parse_input
  rw [if_neg (by tauto)]
  cases hpt : parseTokens st.foreground_only (tokenize line) empty_command with
  | none =>
    rw [hpt] at hk
    simp only [Option.isSome_none] at hk
    constructor
    · intro hne; exact absurd rfl hne
    · intro hok; rw [← hk] at hok; exact absurd hok (by decide)
  | some c =>
    rw [hpt] at hk
    simp only [Option.isSome_some] at hk
    constructor
    · intro _; exact hk.symm
    · intro _; simp

/-- C10 witness: `wc < f` satisfies the discipline and parses safely. -/
theorem c10_null_deref_iff_witness :
    (("wc < f\n" : String).data.head? ≠ some '\n' ∧
      ("wc < f\n" : String).data.head? ≠ some '#') ∧
    (parse_input ⟨0, 0⟩ "wc < f\n" ≠ .nullDeref ↔
      redir_ok (tokenize "wc < f\n") = true) :=
  ⟨by decide, c10_null_deref_iff ⟨0, 0⟩ "wc < f\n" (by decide)⟩

end SmallShell
